import Mathlib

/-!
Verification of the MPC_Solar_BESS energy-management system.

This file shallowly embeds the core of the repository in Lean 4 and proves
(or refutes) the frozen claims about it:

* `objective_function.py` — the FiT tariff evaluator
  (`detect_time_window_for_aligned_blocks`, `compute_payment_for_interval`);
* `src/models/battery.py` — `BatteryParams`, `BatteryState.step`;
* `src/mpc/mpc_controller*.py` — the heuristic block-energy controller
  (`BlockEnergyMPC.compute_current_setpoint` and its clamps);
* `src/mpc/qp_block_mpc.py` — the QP block-energy controller, embedded as
  its feasible set and objective (the solver is modelled as returning a
  global minimizer, or the `0.0` fallback);
* `src/runtime/realtime_runner.py` — the per-tick control flow of
  `RealTimeEMS.tick`.

Real numbers of the Python source are embedded as rationals (`ℚ`);
local times of day are embedded as seconds since midnight (`ℕ`);
timestamps inside one day are embedded as minutes since midnight (`ℤ`).
-/

namespace MPCSolarBESS

/-- Decidable equality for `Except`, used to evaluate the embedded
fallible functions on concrete inputs. -/
instance {ε α : Type} [DecidableEq ε] [DecidableEq α] :
    DecidableEq (Except ε α)
  | .error e, .error f =>
    if h : e = f then isTrue (congrArg Except.error h)
    else isFalse (fun hh => h (Except.error.inj hh))
  | .error _, .ok _ => isFalse (fun hh => Except.noConfusion hh)
  | .ok _, .error _ => isFalse (fun hh => Except.noConfusion hh)
  | .ok a, .ok b =>
    if h : a = b then isTrue (congrArg Except.ok h)
    else isFalse (fun hh => h (Except.ok.inj hh))

/-! ## Tariff evaluator (`objective_function.py`) -/

/-- Seconds since local midnight for hour/minute/second, mirroring
`datetime.time(h, m, s)` at second granularity. -/
def mkTime (h m s : ℕ) : ℕ := h * 3600 + m * 60 + s

/-- `ADJUST_FACTOR = 14.0 / 15.0` of `objective_function.py`. -/
def ADJUST_FACTOR : ℚ := 14 / 15

/-- `PENALTY_RATE = 0.12` of `objective_function.py`. -/
def PENALTY_RATE : ℚ := 12 / 100

/-- `_in_range(t, start, end, inclusive_end)` of `objective_function.py`. -/
def in_range (t start stop : ℕ) (inclusive_end : Bool) : Prop :=
  if inclusive_end then start ≤ t ∧ t ≤ stop else start ≤ t ∧ t < stop

instance (t start stop : ℕ) (b : Bool) : Decidable (in_range t start stop b) := by
  unfold in_range; infer_instance

/-- `detect_time_window_for_aligned_blocks` of `objective_function.py`,
on the time-of-day `t` (seconds since midnight) of the input timestamp
(the date part never influences the Python function).  Returns
`some (window_id, adjusted_subinterval)`, or `none` where the source
raises `ValueError` ("does not fall into any defined window").

Note: the source computes a local variable
`adjusted = (t == 06:00) or (t == 16:00) or (t == 18:00)` that is never
read afterwards; it is kept here (underscored) for fidelity. -/
def detect_time_window_for_aligned_blocks (t : ℕ) : Option (ℕ × Bool) :=
  let _adjusted : Prop :=
    t = mkTime 6 0 0 ∨ t = mkTime 16 0 0 ∨ t = mkTime 18 0 0
  if in_range t (mkTime 9 0 0) (mkTime 16 0 0) true then
    some (1, decide (t = mkTime 16 0 0))
  else if (mkTime 0 0 0 ≤ t ∧ t ≤ mkTime 6 0 0) ∨
          (mkTime 18 1 0 ≤ t ∧ t ≤ mkTime 23 59 59) then
    some (2, decide (t = mkTime 18 0 0))
  else if in_range t (mkTime 6 15 0) (mkTime 9 0 0) true ∨
          in_range t (mkTime 16 15 0) (mkTime 18 0 0) true then
    some (3, false)
  else
    none

/-- The `IntervalInput` dataclass of `objective_function.py`; `ts_start`
is reduced to its time of day in seconds since midnight. -/
structure IntervalInput where
  ts_start : ℕ
  e_read_kwh : ℚ
  fit_rate : ℚ
  contract_kwh : Option ℚ := none
  egat_plan_kwh : Option ℚ := none
  has_egat_plan_in_win3 : Option Bool := none
deriving Repr, DecidableEq

/-- The `IntervalResult` dataclass of `objective_function.py`. -/
structure IntervalResult where
  window_id : ℕ
  adjusted_subinterval : Bool
  e_use_kwh : ℚ
  base_kwh : ℚ
  payable_kwh : ℚ
  shortfall_kwh : ℚ
  penalty_currency : ℚ
  payment_currency : ℚ
deriving Repr, DecidableEq

/-- The error cases of `compute_payment_for_interval`: one constructor per
`raise ValueError` site of the source. -/
inductive TariffError where
  | unclassifiedWindow
  | missingContractW1
  | missingEgatW2
  | missingFlagW3
  | missingEgatW3
  | missingContractW3
deriving Repr, DecidableEq

/-- The window-dependent base selection (step 2 of
`compute_payment_for_interval`). -/
def base_for_window (window_id : ℕ) (params : IntervalInput) :
    Except TariffError ℚ :=
  if window_id = 1 then
    match params.contract_kwh with
    | none => .error .missingContractW1
    | some c => .ok c
  else if window_id = 2 then
    match params.egat_plan_kwh with
    | none => .error .missingEgatW2
    | some c => .ok c
  else
    match params.has_egat_plan_in_win3 with
    | none => .error .missingFlagW3
    | some b =>
      if b then
        match params.egat_plan_kwh with
        | none => .error .missingEgatW3
        | some c => .ok c
      else
        match params.contract_kwh with
        | none => .error .missingContractW3
        | some c => .ok c

/-- `compute_payment_for_interval` of `objective_function.py`: window
detection, the 14/15 metered-energy adjustment, window-dependent base,
cap, penalty and payment.  Python `raise` sites become `.error` values. -/
def compute_payment_for_interval (params : IntervalInput) :
    Except TariffError IntervalResult :=
  match detect_time_window_for_aligned_blocks params.ts_start with
  | none => .error .unclassifiedWindow
  | some (window_id, adjusted) =>
    let e_use : ℚ := params.e_read_kwh * (if adjusted then ADJUST_FACTOR else 1)
    match base_for_window window_id params with
    | .error e => .error e
    | .ok base =>
      let payable : ℚ := if base < e_use then base else e_use
      let shortfall : ℚ := if base < e_use then 0 else max (base - e_use) 0
      let penalty : ℚ :=
        if base < e_use then 0 else max (base - e_use) 0 * params.fit_rate * PENALTY_RATE
      let payment : ℚ := payable * params.fit_rate - penalty
      .ok { window_id := window_id
            adjusted_subinterval := adjusted
            e_use_kwh := e_use
            base_kwh := base
            payable_kwh := payable
            shortfall_kwh := shortfall
            penalty_currency := penalty
            payment_currency := payment }

/-! ## Battery model (`src/models/battery.py`) -/

/-- The `BatteryParams` dataclass of `src/models/battery.py`. -/
structure BatteryParams where
  energy_capacity_kwh : ℚ
  soc_init_kwh : ℚ
  soc_min_kwh : ℚ
  soc_max_kwh : ℚ
  p_discharge_max_kw : ℚ
  p_charge_max_kw : ℚ
  eta_charge : ℚ
  eta_discharge : ℚ
  soc_terminal_kwh : ℚ
deriving Repr, DecidableEq

/-- The `BatteryState` object of `src/models/battery.py`: its `params`
reference and the two mutable fields. -/
structure BatteryState where
  params : BatteryParams
  energy_kwh : ℚ
  last_p_kw : ℚ
deriving Repr, DecidableEq

/-- `BatteryState.__init__`. -/
def BatteryState.init (params : BatteryParams) : BatteryState :=
  { params := params, energy_kwh := params.soc_init_kwh, last_p_kw := 0 }

/-- `BatteryState.step(p_kw, dt_minutes)` of `src/models/battery.py`:
the post-mutation state.  Discharge (`p_kw ≥ 0`) drains
`dt_h * p / eta_discharge`; charge adds `dt_h * (-p) * eta_charge`. -/
def BatteryState.step (s : BatteryState) (p_kw : ℚ) (dt_minutes : ℚ) :
    BatteryState :=
  let dt_hours := dt_minutes / 60
  let energy :=
    if 0 ≤ p_kw then
      s.energy_kwh - dt_hours * (p_kw / s.params.eta_discharge)
    else
      s.energy_kwh - dt_hours * (p_kw * s.params.eta_charge)
  { s with energy_kwh := energy, last_p_kw := p_kw }

/-! ## Heuristic block-energy controller
(`src/mpc/mpc_controller_old.py` and the patched
`src/mpc/.ipynb_checkpoints/mpc_controller-checkpoint.py`;
both share the clamp helpers verbatim). -/

/-- `np.clip(x, lo, hi) = min (max x lo) hi`. -/
def npClip (x lo hi : ℚ) : ℚ := min (max x lo) hi

/-- Constructor arguments shared by both heuristic controller versions
(`BlockEnergyMPC.__init__`); `soc_terminal_kwh`/`terminal_weight` exist
only in the patched version and are ignored by the old one.
`terminal_weight` stores `max(0.0, terminal_weight)` as in the source. -/
structure MPCParams where
  dt_minutes : ℚ
  p_discharge_max_kw : ℚ
  p_charge_max_kw : ℚ
  eta_charge : ℚ
  eta_discharge : ℚ
  ramp_rate_kw_per_step : Option ℚ := none
  soc_terminal_kwh : Option ℚ := none
  terminal_weight : ℚ := 0
deriving Repr, DecidableEq

namespace MPCParams

/-- `self.dt_hours = dt_minutes / 60.0`. -/
def dt_hours (P : MPCParams) : ℚ := P.dt_minutes / 60

/-- `BlockEnergyMPC._apply_ramp`. -/
def apply_ramp (P : MPCParams) (p_des last_p : ℚ) : ℚ :=
  match P.ramp_rate_kw_per_step with
  | none => p_des
  | some r => npClip p_des (last_p - r) (last_p + r)

/-- `BlockEnergyMPC._apply_power_limits`. -/
def apply_power_limits (P : MPCParams) (p : ℚ) : ℚ :=
  npClip p (-P.p_charge_max_kw) P.p_discharge_max_kw

/-- `BlockEnergyMPC._apply_soc_bounds`: minimally adjust `p_kw` to keep
the predicted next SOC within bounds, then re-clip to power limits. -/
def apply_soc_bounds (P : MPCParams)
    (E_kwh p_kw soc_min_kwh soc_max_kwh : ℚ) : ℚ :=
  let dt_h := P.dt_hours
  let p :=
    if 0 ≤ p_kw then
      let E_next := E_kwh - dt_h * (p_kw / P.eta_discharge)
      if E_next < soc_min_kwh then
        min p_kw (max 0 ((E_kwh - soc_min_kwh) * P.eta_discharge / dt_h))
      else p_kw
    else
      let E_next := E_kwh - dt_h * (p_kw * P.eta_charge)
      if soc_max_kwh < E_next then
        max p_kw (min 0 ((E_kwh - soc_max_kwh) / (dt_h * P.eta_charge)))
      else p_kw
  P.apply_power_limits p

end MPCParams

/-- The `block_rows` dictionary handed to the controllers: `n` aligned
rows plus the scalar `current_index` (kept in-range by construction, as
`RealTimeEMS.tick` derives it from a match against the row timestamps).
`solar_actual_kw` is meaningful only where `actual_available` holds
(the source stores NaN otherwise and routes around it). -/
structure BlockRows (n : ℕ) where
  substeps : Fin n → ℤ
  E_target_kwh : Fin n → ℚ
  solar_forecast_kw : Fin n → ℚ
  solar_actual_kw : Fin n → ℚ
  actual_available : Fin n → Bool
  current_index : Fin n

namespace BlockRows

variable {n : ℕ} (br : BlockRows n)

/-- `past_mask = substeps < substeps[idx_cur]`. -/
def past_mask (i : Fin n) : Prop := br.substeps i < br.substeps br.current_index

instance (i : Fin n) : Decidable (br.past_mask i) := by
  unfold past_mask; infer_instance

/-- `future_mask = ~past_mask` (includes the current row). -/
def future_mask (i : Fin n) : Prop := ¬ br.past_mask i

instance (i : Fin n) : Decidable (br.future_mask i) := by
  unfold future_mask; infer_instance

/-- `remaining_steps = int(np.sum(future_mask))`. -/
def remaining_steps : ℕ :=
  (Finset.univ.filter (fun i => br.future_mask i)).card

/-- `E_solar_past_kwh = float(np.sum(solar_past_kw[past_mask]) * dt_h)`
where per past row the actual is used when available, else the forecast. -/
def E_solar_past_kwh (dt_h : ℚ) : ℚ :=
  (∑ i ∈ Finset.univ.filter (fun i => br.past_mask i),
    (if br.actual_available i then br.solar_actual_kw i
     else br.solar_forecast_kw i)) * dt_h

/-- `E_solar_future_kwh = float(np.sum(solar_forecast_kw[future_mask]) * dt_h)`. -/
def E_solar_future_kwh (dt_h : ℚ) : ℚ :=
  (∑ i ∈ Finset.univ.filter (fun i => br.future_mask i),
    br.solar_forecast_kw i) * dt_h

/-- `E_target_kwh = float(block_rows["E_target_kwh"][0])`. -/
def E_target0 : ℚ := br.E_target_kwh ⟨0, br.current_index.pos⟩

end BlockRows

/-- The desired (pre-clamp) average power of both heuristic controllers:
`p_des_avg_kw = E_bess_needed_kwh / (remaining_steps * dt_h)`. -/
def p_des_avg_kw {n : ℕ} (P : MPCParams)
    (br : BlockRows n) : ℚ :=
  let dt_h := P.dt_hours
  let E_bess_needed_kwh :=
    br.E_target0 - (br.E_solar_past_kwh dt_h + br.E_solar_future_kwh dt_h)
  E_bess_needed_kwh / ((br.remaining_steps : ℚ) * dt_h)

/-- `BlockEnergyMPC.compute_current_setpoint` of
`src/mpc/mpc_controller_old.py` (no terminal-SOC bias, with the
`remaining_steps <= 0` zero fallback). -/
def compute_current_setpoint_old {n : ℕ} (P : MPCParams)
    (E_kwh soc_min_kwh soc_max_kwh last_p_kw : ℚ)
    (br : BlockRows n) : ℚ :=
  if br.remaining_steps ≤ 0 then 0
  else
    let p1 := P.apply_ramp (p_des_avg_kw P br) last_p_kw
    let p2 := P.apply_power_limits p1
    P.apply_soc_bounds E_kwh p2 soc_min_kwh soc_max_kwh

/-- `BlockEnergyMPC.compute_current_setpoint` of the patched controller
(`mpc_controller-checkpoint.py`): adds the terminal-SOC soft bias
(taken when `soc_terminal_kwh` is set, `terminal_weight > 0` and
`remaining_steps_day` is truthy, i.e. present and nonzero). -/
def compute_current_setpoint {n : ℕ} (P : MPCParams)
    (E_kwh soc_min_kwh soc_max_kwh last_p_kw : ℚ)
    (br : BlockRows n) (remaining_steps_day : Option ℤ) : ℚ :=
  let dt_h := P.dt_hours
  let p_des :=
    match P.soc_terminal_kwh, remaining_steps_day with
    | some st, some rsd =>
      if 0 < P.terminal_weight ∧ rsd ≠ 0 then
        p_des_avg_kw P br +
          P.terminal_weight * ((E_kwh - st) / ((rsd : ℚ) * dt_h))
      else p_des_avg_kw P br
    | _, _ => p_des_avg_kw P br
  let p1 := P.apply_ramp p_des last_p_kw
  let p2 := P.apply_power_limits p1
  P.apply_soc_bounds E_kwh p2 soc_min_kwh soc_max_kwh

/-! ## QP block-energy controller
(`src/mpc/.ipynb_checkpoints/qp_block_mpc-checkpoint.py`).

The cvxpy problem built by `QPBlockEnergyMPC.compute_current_setpoint` is
embedded as its feasible set (`qpFeasible`) and objective (`qpObjective`)
over the split decision variables `p_pos, p_neg` for the `R` remaining
substeps; the OSQP call is modelled as returning a global minimizer, with
the source's `return float(0.0)` fallback when the solver yields nothing. -/

/-- Constructor arguments of `QPBlockEnergyMPC.__init__` (defaults as in
the source, floats read as rationals). -/
structure QPParams where
  dt_minutes : ℚ
  p_discharge_max_kw : ℚ
  p_charge_max_kw : ℚ
  eta_charge : ℚ
  eta_discharge : ℚ
  ramp_rate_kw_per_step : Option ℚ := none
  w_track : ℚ := 1
  w_mag : ℚ := 1 / 10000
  w_smooth : ℚ := 1 / 100
  w_block_energy : ℚ := 10
  w_terminal_soc : ℚ := 1 / 10
  soc_terminal_kwh : Option ℚ := none
deriving Repr, DecidableEq

/-- `self.dt_h = dt_minutes / 60.0`. -/
def QPParams.dt_h (Q : QPParams) : ℚ := Q.dt_minutes / 60

/-- The SOC recursion `E_seq` of the QP:
`E_{k+1} = E_k - dt_h * (p_pos_k / eta_d) + dt_h * (p_neg_k * eta_c)`. -/
def qpE_seq (Q : QPParams) (E0 : ℚ) (p_pos p_neg : ℕ → ℚ) : ℕ → ℚ
  | 0 => E0
  | k + 1 =>
    qpE_seq Q E0 p_pos p_neg k
      - Q.dt_h * (p_pos k / Q.eta_discharge)
      + Q.dt_h * (p_neg k * Q.eta_charge)

/-- The constraint set of the QP over the `R` remaining substeps:
non-negativity and power caps of the split variables, ramp constraints
(first step against `last_p_kw`, then consecutive), and SOC bounds at
every step after the initial one. -/
def qpFeasible (Q : QPParams) (E0_kwh soc_min_kwh soc_max_kwh last_p_kw : ℚ)
    (R : ℕ) (p_pos p_neg : ℕ → ℚ) : Prop :=
  (∀ k < R, 0 ≤ p_pos k ∧ p_pos k ≤ Q.p_discharge_max_kw) ∧
  (∀ k < R, 0 ≤ p_neg k ∧ p_neg k ≤ Q.p_charge_max_kw) ∧
  (∀ r, Q.ramp_rate_kw_per_step = some r →
    (0 < R → |(p_pos 0 - p_neg 0) - last_p_kw| ≤ r) ∧
    (∀ k, k + 1 < R →
      |(p_pos (k + 1) - p_neg (k + 1)) - (p_pos k - p_neg k)| ≤ r)) ∧
  (∀ k, 1 ≤ k → k ≤ R →
    soc_min_kwh ≤ qpE_seq Q E0_kwh p_pos p_neg k ∧
    qpE_seq Q E0_kwh p_pos p_neg k ≤ soc_max_kwh)

/-- The QP objective: tracking, magnitude, smoothness (only for `R ≥ 2`),
block-energy and optional terminal-SOC terms, with
`E_target_kwh = target_power_kw_block * 0.25` and `solar_fc` the
future-masked forecast slice. -/
def qpObjective (Q : QPParams) (E0_kwh : ℚ) (R : ℕ) (solar_fc : ℕ → ℚ)
    (target_power_kw_block : ℚ) (remaining_steps_day : Option ℤ)
    (p_pos p_neg : ℕ → ℚ) : ℚ :=
  let dt_h := Q.dt_h
  let p : ℕ → ℚ := fun k => p_pos k - p_neg k
  let track := Q.w_track *
    ∑ k ∈ Finset.range R, (solar_fc k + p k - target_power_kw_block) ^ 2
  let mag := Q.w_mag * ∑ k ∈ Finset.range R, p k ^ 2
  let smooth :=
    if 2 ≤ R then
      Q.w_smooth * ∑ k ∈ Finset.range (R - 1), (p (k + 1) - p k) ^ 2
    else 0
  let E_target_kwh := target_power_kw_block * (1 / 4)
  let E_solar_future_kwh := (∑ k ∈ Finset.range R, solar_fc k) * dt_h
  let E_batt_future_kwh := dt_h * ∑ k ∈ Finset.range R, p k
  let blockE := Q.w_block_energy *
    (E_solar_future_kwh + E_batt_future_kwh - E_target_kwh) ^ 2
  let term :=
    match Q.soc_terminal_kwh, remaining_steps_day with
    | some st, some _ =>
      if 0 < Q.w_terminal_soc then
        Q.w_terminal_soc * (qpE_seq Q E0_kwh p_pos p_neg R - st) ^ 2
      else 0
    | _, _ => 0
  track + mag + smooth + blockE + term

/-- A global minimizer of the QP: feasible and of objective value at most
that of every feasible point. -/
def IsQPMinimizer (Q : QPParams)
    (E0_kwh soc_min_kwh soc_max_kwh last_p_kw : ℚ) (R : ℕ)
    (solar_fc : ℕ → ℚ) (target_power_kw_block : ℚ)
    (remaining_steps_day : Option ℤ) (p_pos p_neg : ℕ → ℚ) : Prop :=
  qpFeasible Q E0_kwh soc_min_kwh soc_max_kwh last_p_kw R p_pos p_neg ∧
  ∀ q_pos q_neg,
    qpFeasible Q E0_kwh soc_min_kwh soc_max_kwh last_p_kw R q_pos q_neg →
    qpObjective Q E0_kwh R solar_fc target_power_kw_block
        remaining_steps_day p_pos p_neg ≤
      qpObjective Q E0_kwh R solar_fc target_power_kw_block
        remaining_steps_day q_pos q_neg

/-- The value returned by `QPBlockEnergyMPC.compute_current_setpoint`:
the first move `p[0]` of a solver-found global minimizer, or the `0.0`
fallback when the solver produced no value. -/
def qp_setpoint_spec (Q : QPParams)
    (E0_kwh soc_min_kwh soc_max_kwh last_p_kw : ℚ) (R : ℕ)
    (solar_fc : ℕ → ℚ) (target_power_kw_block : ℚ)
    (remaining_steps_day : Option ℤ) (out : ℚ) : Prop :=
  (∃ p_pos p_neg,
    IsQPMinimizer Q E0_kwh soc_min_kwh soc_max_kwh last_p_kw R solar_fc
      target_power_kw_block remaining_steps_day p_pos p_neg ∧
    out = p_pos 0 - p_neg 0) ∨
  out = 0

/-! ## Real-time control loop
(`src/runtime/.ipynb_checkpoints/realtime_runner-checkpoint.py`). -/

/-- `floor_to_15min` of `src/io/data_loader.py` on timestamps measured in
whole minutes since local midnight (the source floors the minute field to
a multiple of 15 and zeroes seconds). -/
def floor_to_15min (t : ℤ) : ℤ := t - t % 15

/-- The failure modes of `RealTimeEMS.tick`: the two `raise RuntimeError`
sites (missing day-ahead target at `block_start`; `t_now` matching no row
of the current block). -/
inductive TickError where
  | noDayAheadTarget
  | tNowNotInBlock
deriving Repr, DecidableEq

/-- One row of `online_mpc_results.csv` as assembled at the end of
`RealTimeEMS.tick`. -/
structure LogRow where
  timestamp : ℤ
  block_start : ℤ
  substep_in_block : ℤ
  E_target_kwh : ℚ
  target_power_kw : ℚ
  solar_forecast_kw : ℚ
  solar_actual_kw : Option ℚ
  actual_available : Bool
  battery_power_kw : ℚ
  grid_output_kw : ℚ
  soc_kwh : ℚ

namespace RealTimeEMS

/-- `RealTimeEMS.tick(t_now)` with the heuristic controller selected
(`use_qp = False`), for the configured `dt_minutes_rtu = 5`.

File access is abstracted into lookup functions: `day_ahead` is the
padded 15-min day-ahead table (`dfE`, block start ↦ `expected_power_kw`),
`forecast5`/`actual5` the rows of the polled short forecast/actual files.
Timestamps are minutes since midnight.

The result is the battery state after the tick together with either the
emitted log row or the error raised; mirroring the source, the state is
advanced by `BatteryState.step` only after a setpoint was computed, and
both `raise RuntimeError` sites occur before that. -/
def tick (P : MPCParams) (s : BatteryState)
    (day_ahead forecast5 actual5 : ℤ → Option ℚ)
    (day_end t_now : ℤ) : BatteryState × Except TickError LogRow :=
  let block_start := floor_to_15min t_now
  match day_ahead block_start with
  | none => (s, .error .noDayAheadTarget)
  | some pw =>
    let E_target_kwh : ℚ := pw * (1 / 4)
    let ts : Fin 3 → ℤ := fun i => block_start + 5 * (i : ℤ)
    let idxOpt : Option (Fin 3) :=
      if t_now = block_start then some 0
      else if t_now = block_start + 5 then some 1
      else if t_now = block_start + 10 then some 2
      else none
    match idxOpt with
    | none => (s, .error .tNowNotInBlock)
    | some idx =>
      let fc : Fin 3 → ℚ := fun i => max ((forecast5 (ts i)).getD 0) 0
      let actAt : Fin 3 → Option ℚ :=
        fun i => if ts i = t_now then actual5 t_now else none
      let br : BlockRows 3 :=
        { substeps := fun i => (i : ℤ)
          E_target_kwh := fun _ => E_target_kwh
          solar_forecast_kw := fc
          solar_actual_kw := fun i => (actAt i).getD 0
          actual_available := fun i => (actAt i).isSome
          current_index := idx }
      let remaining_steps_day : ℤ := Int.fdiv (day_end - t_now) 5 + 1
      let p_kw := compute_current_setpoint P s.energy_kwh
        s.params.soc_min_kwh s.params.soc_max_kwh s.last_p_kw br
        (some remaining_steps_day)
      let solar_now_kw :=
        if (actAt idx).isSome then (actAt idx).getD 0 else fc idx
      let s2 := s.step p_kw 5
      (s2, .ok
        { timestamp := t_now
          block_start := block_start
          substep_in_block := (idx : ℤ)
          E_target_kwh := E_target_kwh
          target_power_kw := E_target_kwh / (1 / 4)
          solar_forecast_kw := fc idx
          solar_actual_kw := actAt idx
          actual_available := (actAt idx).isSome
          battery_power_kw := p_kw
          grid_output_kw := solar_now_kw + p_kw
          soc_kwh := s2.energy_kwh })

end RealTimeEMS

/-! ## Tariff theorems (claims C1, C2, C3, C9) -/

/-- C1.  The claim states `e_use_kwh = e_read_kwh * 14/15` exactly at the
blocks starting 06:00, 16:00 and 18:00.  The source's own module header
and docstring promise the same mapping, and it even computes the
corresponding flag, but the returned flag is rebuilt per window arm:
at 06:00 the window-2 arm returns `t == 18:00` (false), and 18:00 falls
through to the window-3 arm returning `False`.  Evaluating the embedded
code at the failing inputs: with `e_read_kwh = 15` the evaluator keeps
`e_use_kwh = 15` at 06:00 and at 18:00 (the claim demands `14`), while
16:00 is adjusted as claimed. -/
theorem c1_adjustment_dropped_at_0600_and_1800 :
    compute_payment_for_interval
      { ts_start := mkTime 6 0 0, e_read_kwh := 15, fit_rate := 1,
        egat_plan_kwh := some 10 } =
      .ok { window_id := 2, adjusted_subinterval := false, e_use_kwh := 15,
            base_kwh := 10, payable_kwh := 10, shortfall_kwh := 0,
            penalty_currency := 0, payment_currency := 10 } ∧
    compute_payment_for_interval
      { ts_start := mkTime 18 0 0, e_read_kwh := 15, fit_rate := 1,
        contract_kwh := some 10, has_egat_plan_in_win3 := some false } =
      .ok { window_id := 3, adjusted_subinterval := false, e_use_kwh := 15,
            base_kwh := 10, payable_kwh := 10, shortfall_kwh := 0,
            penalty_currency := 0, payment_currency := 10 } ∧
    compute_payment_for_interval
      { ts_start := mkTime 16 0 0, e_read_kwh := 15, fit_rate := 1,
        contract_kwh := some 10 } =
      .ok { window_id := 1, adjusted_subinterval := true, e_use_kwh := 14,
            base_kwh := 10, payable_kwh := 10, shortfall_kwh := 0,
            penalty_currency := 0, payment_currency := 10 } := by
  refine ⟨?_, ?_, ?_⟩ <;>
    norm_num [compute_payment_for_interval, base_for_window,
      detect_time_window_for_aligned_blocks, in_range, mkTime,
      ADJUST_FACTOR, PENALTY_RATE]

/-- C2 counterexample.  The claim says the 06:00 block is W3 and the
18:00 block is W2; the code classifies 06:00 as W2 (its comments place
06:00 in the overnight window) and 18:00 as W3 (the W2 arm requires
`t ≥ 18:01`, so 18:00 reaches the W3 range check), in both cases with
the adjusted flag false. -/
theorem c2_window_claim_counterexample :
    detect_time_window_for_aligned_blocks (mkTime 6 0 0) = some (2, false) ∧
    (∀ a, detect_time_window_for_aligned_blocks (mkTime 6 0 0) ≠ some (3, a)) ∧
    detect_time_window_for_aligned_blocks (mkTime 18 0 0) = some (3, false) ∧
    (∀ a, detect_time_window_for_aligned_blocks (mkTime 18 0 0) ≠ some (2, a)) := by
  decide

/-- C2 amended.  For every 15-min-aligned time of day, the classification
actually returned is: W1 iff `09:00 ≤ tod ≤ 16:00`; W2 iff `tod ≤ 06:00`
or `tod ≥ 18:15` (aligned form of `tod ≥ 18:01`); W3 iff
`06:15 ≤ tod < 09:00` or `16:15 ≤ tod ≤ 18:00`; and the adjusted flag is
set exactly at 16:00. -/
theorem c2_amended_window_classification (t : ℕ)
    (halign : t % 900 = 0) (hday : t < 86400) :
    detect_time_window_for_aligned_blocks t =
      some (if 32400 ≤ t ∧ t ≤ 57600 then 1
            else if t ≤ 21600 ∨ 65700 ≤ t then 2 else 3,
            decide (t = 57600)) := by
  obtain ⟨k, rfl⟩ := Nat.dvd_of_mod_eq_zero halign
  have hk : k < 96 := by omega
  have h : ∀ m, m < 96 → detect_time_window_for_aligned_blocks (900 * m) =
      some (if 32400 ≤ 900 * m ∧ 900 * m ≤ 57600 then 1
            else if 900 * m ≤ 21600 ∨ 65700 ≤ 900 * m then 2 else 3,
            decide (900 * m = 57600)) := by decide
  exact h k hk

/-- Witness for C2 amended at the aligned time 09:00. -/
theorem c2_amended_window_classification_witness :
    detect_time_window_for_aligned_blocks 32400 = some (1, false) := by
  rw [c2_amended_window_classification 32400 (by decide) (by decide)]
  decide

/-- C3.  For every interval whose evaluation succeeds (window classified
and required base present): over-delivery is capped at the base with no
shortfall or penalty, under-delivery pays the delivered energy minus a
12 % FiT penalty on the shortfall, and the payment is always
`payable * fit_rate - penalty`; at `e_use = base` the payment is exactly
`base * fit_rate`. -/
theorem c3_payment_formula (params : IntervalInput) (r : IntervalResult)
    (h : compute_payment_for_interval params = .ok r) :
    (r.base_kwh < r.e_use_kwh →
      r.payable_kwh = r.base_kwh ∧ r.shortfall_kwh = 0 ∧
      r.penalty_currency = 0) ∧
    (r.e_use_kwh ≤ r.base_kwh →
      r.payable_kwh = r.e_use_kwh ∧
      r.shortfall_kwh = r.base_kwh - r.e_use_kwh ∧
      r.penalty_currency = 12 / 100 * params.fit_rate * r.shortfall_kwh) ∧
    r.payment_currency = r.payable_kwh * params.fit_rate - r.penalty_currency ∧
    (r.e_use_kwh = r.base_kwh →
      r.payment_currency = r.base_kwh * params.fit_rate) := by
  unfold compute_payment_for_interval at h
  rcases hdet : detect_time_window_for_aligned_blocks params.ts_start with
    _ | ⟨w, adj⟩ <;> rw [hdet] at h
  · exact absurd h (by simp)
  dsimp only at h
  rcases hbase : base_for_window w params with e | base <;> rw [hbase] at h
  · exact absurd h (by simp)
  dsimp only at h
  rw [Except.ok.injEq] at h
  subst h
  dsimp only
  generalize params.e_read_kwh * (if adj = true then ADJUST_FACTOR else 1) = e_use
  by_cases hc : base < e_use
  · refine ⟨fun _ => by simp [hc], fun hle => absurd hc hle.not_lt, ?_, ?_⟩
    · simp [hc]
    · intro heq
      simp only [heq] at hc
      exact absurd hc (lt_irrefl _)
  · have hle : e_use ≤ base := not_lt.mp hc
    have hmax : max (base - e_use) 0 = base - e_use :=
      max_eq_left (sub_nonneg.mpr hle)
    refine ⟨fun hgt => absurd hgt hc, fun _ => ?_, ?_, ?_⟩
    · refine ⟨by simp [hc], by simp [hc, hmax], ?_⟩
      simp only [hc, if_false, hmax, PENALTY_RATE]
      ring
    · simp [hc]
    · intro heq
      simp [hc, heq, PENALTY_RATE]

/-- The concrete Window-1 interval used as the C3 witness:
10:00 block, metered 1 kWh, contract 2 kWh, FiT 3. -/
def c3ExampleInput : IntervalInput :=
  { ts_start := mkTime 10 0 0, e_read_kwh := 1, fit_rate := 3,
    contract_kwh := some 2 }

/-- The result the evaluator returns on `c3ExampleInput`. -/
def c3ExampleResult : IntervalResult :=
  { window_id := 1, adjusted_subinterval := false, e_use_kwh := 1,
    base_kwh := 2, payable_kwh := 1, shortfall_kwh := 1,
    penalty_currency := 9 / 25, payment_currency := 66 / 25 }

/-- Witness for C3: the under-delivery arm at the concrete Window-1
interval. -/
theorem c3_payment_formula_witness :
    c3ExampleResult.payable_kwh = c3ExampleResult.e_use_kwh ∧
    c3ExampleResult.shortfall_kwh =
      c3ExampleResult.base_kwh - c3ExampleResult.e_use_kwh ∧
    c3ExampleResult.penalty_currency =
      12 / 100 * c3ExampleInput.fit_rate * c3ExampleResult.shortfall_kwh :=
  (c3_payment_formula c3ExampleInput c3ExampleResult
      (by norm_num [c3ExampleInput, c3ExampleResult,
        compute_payment_for_interval, base_for_window,
        detect_time_window_for_aligned_blocks, in_range, mkTime,
        ADJUST_FACTOR, PENALTY_RATE])).2.1
    (by norm_num [c3ExampleResult])

/-- C9 counterexample.  The timestamp 10:07:00 is not aligned to the
15-min grid, yet the evaluator returns a normal payment result instead of
failing: no alignment check exists in the source. -/
theorem c9_misaligned_not_rejected :
    mkTime 10 7 0 % 900 ≠ 0 ∧
    compute_payment_for_interval
      { ts_start := mkTime 10 7 0, e_read_kwh := 1, fit_rate := 3,
        contract_kwh := some 2 } =
      .ok { window_id := 1, adjusted_subinterval := false, e_use_kwh := 1,
            base_kwh := 2, payable_kwh := 1, shortfall_kwh := 1,
            penalty_currency := 9 / 25, payment_currency := 66 / 25 } := by
  constructor
  · decide
  · norm_num [compute_payment_for_interval, base_for_window,
      detect_time_window_for_aligned_blocks, in_range, mkTime,
      ADJUST_FACTOR, PENALTY_RATE]

/-- `base_for_window` only raises missing-input errors, never the
unclassified-window one. -/
lemma base_for_window_ne_unclassified (w : ℕ) (params : IntervalInput) :
    base_for_window w params ≠ .error .unclassifiedWindow := by
  unfold base_for_window
  split_ifs <;>
    rcases params.contract_kwh with _ | c <;>
    rcases params.egat_plan_kwh with _ | g <;>
    rcases params.has_egat_plan_in_win3 with _ | b <;>
    simp <;> cases b <;> simp

/-- The window classification raises its defensive error exactly on the
coverage gaps strictly between 06:00 and 06:15, 16:00 and 16:15, and
18:00 and 18:01 (times in seconds since midnight, within one day). -/
lemma detect_eq_none_iff (t : ℕ) (ht : t < 86400) :
    detect_time_window_for_aligned_blocks t = none ↔
      (21600 < t ∧ t < 22500) ∨ (57600 < t ∧ t < 58500) ∨
      (64800 < t ∧ t < 64860) := by
  unfold detect_time_window_for_aligned_blocks in_range mkTime
  split_ifs with h1 h2 h3 <;> simp_all <;> omega

/-- C9 amended.  The evaluator performs no 15-min alignment check: for
any within-day timestamp, it fails with the unclassified-window error
exactly when the time of day lies strictly inside one of the three
coverage gaps (06:00–06:15, 16:00–16:15, 18:00–18:01); every other
timestamp, aligned or not, is classified and processed normally. -/
theorem c9_amended_no_alignment_check (p : IntervalInput)
    (hday : p.ts_start < 86400) :
    (compute_payment_for_interval p = .error .unclassifiedWindow ↔
      (21600 < p.ts_start ∧ p.ts_start < 22500) ∨
      (57600 < p.ts_start ∧ p.ts_start < 58500) ∨
      (64800 < p.ts_start ∧ p.ts_start < 64860)) := by
  rw [← detect_eq_none_iff p.ts_start hday]
  unfold compute_payment_for_interval
  rcases hdet : detect_time_window_for_aligned_blocks p.ts_start with
    _ | ⟨w, adj⟩
  · simp
  dsimp only
  rcases hbase : base_for_window w p with e | base <;> dsimp only <;> simp
  exact fun hh => base_for_window_ne_unclassified w p (hh ▸ hbase)

/-- Witness for C9 amended: at 06:07:00 (inside the first gap) the
evaluator fails with the unclassified-window error. -/
theorem c9_amended_no_alignment_check_witness :
    compute_payment_for_interval
      { ts_start := mkTime 6 7 0, e_read_kwh := 1, fit_rate := 1,
        contract_kwh := some 1, egat_plan_kwh := some 1,
        has_egat_plan_in_win3 := some true } =
      .error .unclassifiedWindow :=
  (c9_amended_no_alignment_check
      { ts_start := mkTime 6 7 0, e_read_kwh := 1, fit_rate := 1,
        contract_kwh := some 1, egat_plan_kwh := some 1,
        has_egat_plan_in_win3 := some true }
      (by norm_num [mkTime])).mpr (by norm_num [mkTime])

/-! ## Battery and heuristic-controller theorems (claims C8, C10, C6, C4) -/

/-- C8.  `BatteryState.step` updates the stored energy by exactly
`Δt_h * p / eta_discharge` downward on discharge and by
`Δt_h * |p| * eta_charge` upward on charge, records the setpoint in
`last_p_kw`, and leaves the parameters untouched. -/
theorem c8_battery_step_update (s : BatteryState) (p_kw dt_minutes : ℚ) :
    (0 ≤ p_kw →
      (s.step p_kw dt_minutes).energy_kwh =
        s.energy_kwh - dt_minutes / 60 * (p_kw / s.params.eta_discharge)) ∧
    (p_kw < 0 →
      (s.step p_kw dt_minutes).energy_kwh =
        s.energy_kwh + dt_minutes / 60 * (-p_kw * s.params.eta_charge)) ∧
    (s.step p_kw dt_minutes).last_p_kw = p_kw ∧
    (s.step p_kw dt_minutes).params = s.params := by
  refine ⟨fun h => ?_, fun h => ?_, rfl, rfl⟩
  · simp [BatteryState.step, if_pos h]
  · simp [BatteryState.step, not_le.mpr h]
    ring

/-- Battery configuration for the C8 witness. -/
def c8Params : BatteryParams :=
  { energy_capacity_kwh := 100, soc_init_kwh := 50, soc_min_kwh := 0,
    soc_max_kwh := 100, p_discharge_max_kw := 10, p_charge_max_kw := 10,
    eta_charge := 9 / 10, eta_discharge := 9 / 10, soc_terminal_kwh := 50 }

/-- Day-start battery state for the C8 witness. -/
def c8State : BatteryState := BatteryState.init c8Params

/-- Witness for C8: charging at 2 kW for 5 minutes raises the SOC from
50 to 50 + (1/12)·2·0.9 = 1003/20 kWh and records the setpoint. -/
theorem c8_battery_step_update_witness :
    (c8State.step (-2) 5).energy_kwh = 1003 / 20 ∧
    (c8State.step (-2) 5).last_p_kw = -2 :=
  ⟨by
    have h := (c8_battery_step_update c8State (-2) 5).2.1 (by norm_num)
    rw [h]
    norm_num [c8State, BatteryState.init, c8Params],
   (c8_battery_step_update c8State (-2) 5).2.2.1⟩

/-- The future mask always contains the current row, so at least one
substep remains. -/
lemma remaining_steps_pos {n : ℕ} (br : BlockRows n) :
    0 < br.remaining_steps := by
  refine Finset.card_pos.mpr ⟨br.current_index, ?_⟩
  simp [BlockRows.future_mask, BlockRows.past_mask]

/-- C10.  The count of remaining substeps is at least one for every
block-rows input (the current row compares `≥` against itself and is in
the future mask), so the even-split division never divides by zero and
the `remaining_steps <= 0` fallback of the older controller is
unreachable. -/
theorem c10_remaining_steps_at_least_one {n : ℕ} (br : BlockRows n) :
    1 ≤ br.remaining_steps ∧ ¬ br.remaining_steps ≤ 0 ∧
    (br.remaining_steps : ℚ) ≠ 0 := by
  have h := remaining_steps_pos br
  exact ⟨h, by omega, Nat.cast_ne_zero.mpr h.ne'⟩

/-- `np.clip` is the identity inside the band. -/
lemma npClip_eq_self (x lo hi : ℚ) (h1 : lo ≤ x) (h2 : x ≤ hi) :
    npClip x lo hi = x := by
  unfold npClip
  rw [max_eq_left h1, min_eq_left h2]

/-- C6.  With all-zero solar forecast, no actuals, `last_p_kw = 0`, SOC
slack on the relevant side, terminal bias disabled, ramp and power
limits admitting `|k|`, and block target `E_target = k · Δt_h · n_future`,
both heuristic controllers return exactly `k`. -/
theorem c6_heuristic_even_split {n : ℕ} (P : MPCParams) (br : BlockRows n)
    (E socMin socMax k : ℚ) (rsd : Option ℤ)
    (hdt : P.dt_minutes ≠ 0)
    (hterm : P.soc_terminal_kwh = none)
    (hfc : ∀ i, br.solar_forecast_kw i = 0)
    (hact : ∀ i, br.actual_available i = false)
    (htarget : br.E_target0 = k * P.dt_hours * br.remaining_steps)
    (hramp : ∀ r, P.ramp_rate_kw_per_step = some r → |k| ≤ r)
    (hpd : k ≤ P.p_discharge_max_kw)
    (hpc : -P.p_charge_max_kw ≤ k)
    (hsoc1 : 0 ≤ k → socMin ≤ E - P.dt_hours * (k / P.eta_discharge))
    (hsoc2 : k < 0 → E - P.dt_hours * (k * P.eta_charge) ≤ socMax) :
    compute_current_setpoint P E socMin socMax 0 br rsd = k ∧
    compute_current_setpoint_old P E socMin socMax 0 br = k := by
  have hmQ : (br.remaining_steps : ℚ) ≠ 0 :=
    Nat.cast_ne_zero.mpr (remaining_steps_pos br).ne'
  have hdtQ : P.dt_hours ≠ 0 := by
    unfold MPCParams.dt_hours
    exact div_ne_zero hdt (by norm_num)
  have hpast0 : br.E_solar_past_kwh P.dt_hours = 0 := by
    simp [BlockRows.E_solar_past_kwh, hact, hfc]
  have hfut0 : br.E_solar_future_kwh P.dt_hours = 0 := by
    simp [BlockRows.E_solar_future_kwh, hfc]
  have hpdes : p_des_avg_kw P br = k := by
    unfold p_des_avg_kw
    dsimp only
    rw [hpast0, hfut0, htarget]
    field_simp
    ring
  have h2 : P.apply_power_limits k = k := by
    unfold MPCParams.apply_power_limits
    exact npClip_eq_self _ _ _ hpc hpd
  have h1 : P.apply_ramp k 0 = k := by
    unfold MPCParams.apply_ramp
    cases hr : P.ramp_rate_kw_per_step with
    | none => rfl
    | some r =>
      have hb := abs_le.mp (hramp r hr)
      dsimp only
      rw [zero_sub, zero_add]
      exact npClip_eq_self _ _ _ hb.1 hb.2
  have h3 : P.apply_soc_bounds E k socMin socMax = k := by
    unfold MPCParams.apply_soc_bounds
    dsimp only
    by_cases hk : 0 ≤ k
    · rw [if_pos hk, if_neg (not_lt.mpr (hsoc1 hk))]
      exact h2
    · rw [if_neg hk, if_neg (not_lt.mpr (hsoc2 (lt_of_not_le hk)))]
      exact h2
  constructor
  · unfold compute_current_setpoint
    rw [hterm]
    dsimp only
    rw [hpdes, h1, h2, h3]
  · unfold compute_current_setpoint_old
    rw [if_neg (by have := remaining_steps_pos br; omega)]
    dsimp only
    rw [hpdes, h1, h2, h3]

/-- Controller configuration for the C6 witness: Δt = 5 min, wide power
limits, unit efficiencies, ramp 5 kW/step, terminal bias disabled. -/
def c6Params : MPCParams :=
  { dt_minutes := 5, p_discharge_max_kw := 100, p_charge_max_kw := 100,
    eta_charge := 1, eta_discharge := 1, ramp_rate_kw_per_step := some 5 }

/-- Block rows for the C6 witness: a fresh block (index 0) with zero
forecast, no actuals, and target energy 1 kWh = 4 kW · (1/12 h) · 3. -/
def c6Rows : BlockRows 3 :=
  { substeps := fun i => (i : ℤ), E_target_kwh := fun _ => 1,
    solar_forecast_kw := fun _ => 0, solar_actual_kw := fun _ => 0,
    actual_available := fun _ => false, current_index := 0 }

/-- Witness for C6 at `k = 4` kW. -/
theorem c6_heuristic_even_split_witness :
    compute_current_setpoint c6Params 50 0 100 0 c6Rows none = 4 :=
  (c6_heuristic_even_split c6Params c6Rows 50 0 100 4 none
    (by norm_num [c6Params]) rfl (fun i => rfl) (fun i => rfl)
    (by
      have h3 : c6Rows.remaining_steps = 3 := by decide
      rw [h3]
      norm_num [BlockRows.E_target0, c6Rows, c6Params, MPCParams.dt_hours])
    (by
      intro r hr
      simp only [c6Params] at hr
      rw [← Option.some.inj hr]
      norm_num)
    (by norm_num [c6Params]) (by norm_num [c6Params])
    (fun _ => by norm_num [c6Params, MPCParams.dt_hours])
    (fun h => absurd h (by norm_num))).1

/-- Witness for C10 at a concrete three-row block. -/
theorem c10_remaining_steps_at_least_one_witness :
    1 ≤ c6Rows.remaining_steps ∧ ¬ c6Rows.remaining_steps ≤ 0 ∧
    (c6Rows.remaining_steps : ℚ) ≠ 0 :=
  c10_remaining_steps_at_least_one c6Rows

/-- `np.clip p lo hi` with `lo ≤ 0 ≤ hi` lands between `min 0 p` and
`max 0 p`: it never moves the value past zero away from it. -/
lemma npClip_between (p lo hi : ℚ) (hlo : lo ≤ 0) (hhi : 0 ≤ hi) :
    min 0 p ≤ npClip p lo hi ∧ npClip p lo hi ≤ max 0 p := by
  unfold npClip
  constructor
  · exact le_min (le_trans (min_le_right 0 p) (le_max_left p lo))
      (le_trans (min_le_left 0 p) hhi)
  · exact le_trans (min_le_left _ _)
      (le_trans (max_le_max le_rfl hlo) (le_of_eq (max_comm p 0)))

/-- The power-limit clamp keeps the setpoint between `min 0 p` and
`max 0 p` when both limits are non-negative. -/
lemma apply_power_limits_between (P : MPCParams)
    (hpd : 0 ≤ P.p_discharge_max_kw) (hpc : 0 ≤ P.p_charge_max_kw) (p : ℚ) :
    min 0 p ≤ P.apply_power_limits p ∧ P.apply_power_limits p ≤ max 0 p := by
  unfold MPCParams.apply_power_limits
  exact npClip_between p _ _ (neg_nonpos.mpr hpc) hpd

/-- The SOC-bound clamp (with its re-clip to power limits) also keeps the
setpoint between `min 0 p` and `max 0 p`: it only shrinks the magnitude. -/
lemma apply_soc_bounds_between (P : MPCParams)
    (hpd : 0 ≤ P.p_discharge_max_kw) (hpc : 0 ≤ P.p_charge_max_kw)
    (E p socMin socMax : ℚ) :
    min 0 p ≤ P.apply_soc_bounds E p socMin socMax ∧
    P.apply_soc_bounds E p socMin socMax ≤ max 0 p := by
  unfold MPCParams.apply_soc_bounds
  dsimp only
  set q := (if 0 ≤ p then
      (if E - P.dt_hours * (p / P.eta_discharge) < socMin then
        min p (max 0 ((E - socMin) * P.eta_discharge / P.dt_hours))
      else p)
    else
      (if socMax < E - P.dt_hours * (p * P.eta_charge) then
        max p (min 0 ((E - socMax) / (P.dt_hours * P.eta_charge)))
      else p)) with hq
  have hqb : min 0 p ≤ q ∧ q ≤ max 0 p := by
    rw [hq]
    by_cases h : 0 ≤ p
    · rw [if_pos h]
      split_ifs with h2
      · constructor
        · exact le_min (le_trans (min_le_left 0 p) h)
            (le_trans (min_le_left 0 p) (le_max_left 0 _))
        · exact le_trans (min_le_left p _) (le_max_right 0 p)
      · exact ⟨min_le_right 0 p, le_max_right 0 p⟩
    · rw [if_neg h]
      have hp : p ≤ 0 := le_of_not_le h
      split_ifs with h2
      · constructor
        · exact le_trans (min_le_right 0 p) (le_max_left p _)
        · exact le_trans (max_le hp (min_le_left 0 _)) (le_max_left 0 p)
      · exact ⟨min_le_right 0 p, le_max_right 0 p⟩
  obtain ⟨l2, u2⟩ := apply_power_limits_between P hpd hpc q
  constructor
  · exact le_trans (le_min (min_le_left 0 p) hqb.1) l2
  · exact le_trans u2 (max_le (le_max_left 0 p) hqb.2)

/-- After the ramp clamp, the power-limit and SOC clamps can only move
the setpoint toward zero, so the final heuristic output stays in the ramp
band whenever zero itself is in it (`|last_p| ≤ ramp`). -/
lemma clamp_pipeline_ramp_bound (P : MPCParams)
    (E socMin socMax lastP pdes r : ℚ)
    (hr : P.ramp_rate_kw_per_step = some r) (hlast : |lastP| ≤ r)
    (hpd : 0 ≤ P.p_discharge_max_kw) (hpc : 0 ≤ P.p_charge_max_kw) :
    |P.apply_soc_bounds E (P.apply_power_limits (P.apply_ramp pdes lastP))
      socMin socMax - lastP| ≤ r := by
  have hlast2 := abs_le.mp hlast
  have hl : lastP - r ≤ 0 := by linarith [hlast2.2]
  have hu : 0 ≤ lastP + r := by linarith [hlast2.1]
  have hrampb : lastP - r ≤ P.apply_ramp pdes lastP ∧
      P.apply_ramp pdes lastP ≤ lastP + r := by
    unfold MPCParams.apply_ramp
    rw [hr]
    unfold npClip
    exact ⟨le_min (le_max_right pdes _) (by linarith), min_le_right _ _⟩
  set pR := P.apply_ramp pdes lastP
  obtain ⟨l2, u2⟩ := apply_power_limits_between P hpd hpc pR
  set p2 := P.apply_power_limits pR
  obtain ⟨l3, u3⟩ := apply_soc_bounds_between P hpd hpc E p2 socMin socMax
  have hlow : lastP - r ≤ min 0 p2 :=
    le_min hl (le_trans (le_min hl hrampb.1) l2)
  have hhigh : max 0 p2 ≤ lastP + r :=
    max_le hu (le_trans u2 (max_le hu hrampb.2))
  rw [abs_le]
  constructor <;> linarith

/-- C4 counterexample configuration: ramp 2 kW/step, unit efficiencies. -/
def c4Params : MPCParams :=
  { dt_minutes := 5, p_discharge_max_kw := 100, p_charge_max_kw := 100,
    eta_charge := 1, eta_discharge := 1, ramp_rate_kw_per_step := some 2 }

/-- C4 counterexample block: fresh block, zero solar, target 3 kWh
(desired power 12 kW). -/
def c4Rows : BlockRows 3 :=
  { substeps := fun i => (i : ℤ), E_target_kwh := fun _ => 3,
    solar_forecast_kw := fun _ => 0, solar_actual_kw := fun _ => 0,
    actual_available := fun _ => false, current_index := 0 }

/-- C4 counterexample.  With ramp 2, `last_p_kw = 10` and an empty
battery sitting at `soc_min`, the heuristic ramp-clamps the desired
12 kW to 12 (inside `[8, 12]`), but the SOC clamp then cuts it to 0,
which violates `|p - last_p| ≤ ramp` (|0 - 10| = 10 > 2): the SOC and
power clamps run after the ramp clamp and can leave the ramp band. -/
theorem c4_ramp_claim_counterexample :
    c4Params.ramp_rate_kw_per_step = some 2 ∧
    compute_current_setpoint c4Params 0 0 50 10 c4Rows none = 0 ∧
    ¬ |compute_current_setpoint c4Params 0 0 50 10 c4Rows none - 10| ≤ 2 := by
  have hsteps : c4Rows.remaining_steps = 3 := by decide
  have hpdes : p_des_avg_kw c4Params c4Rows = 12 := by
    unfold p_des_avg_kw
    dsimp only
    rw [hsteps]
    norm_num [BlockRows.E_target0, BlockRows.E_solar_past_kwh,
      BlockRows.E_solar_future_kwh, c4Rows, c4Params, MPCParams.dt_hours]
  have hval : compute_current_setpoint c4Params 0 0 50 10 c4Rows none = 0 := by
    unfold compute_current_setpoint
    have ht : c4Params.soc_terminal_kwh = none := rfl
    rw [ht]
    dsimp only
    rw [hpdes]
    have h1 : c4Params.apply_ramp 12 10 = 12 := by
      unfold MPCParams.apply_ramp npClip
      norm_num [c4Params]
    have h2 : c4Params.apply_power_limits 12 = 12 := by
      unfold MPCParams.apply_power_limits npClip
      norm_num [c4Params]
    have h3 : c4Params.apply_soc_bounds 0 12 0 50 = 0 := by
      unfold MPCParams.apply_soc_bounds MPCParams.apply_power_limits npClip
      norm_num [c4Params, MPCParams.dt_hours]
    rw [h1, h2, h3]
  refine ⟨rfl, hval, ?_⟩
  rw [hval]
  norm_num

/-- C4 amended.  The ramp bound `|p - last_p| ≤ ramp` holds (a) for the
heuristic controller whenever additionally `|last_p| ≤ ramp` — in general
the power/SOC clamps, applied after the ramp clamp, can only move the
setpoint toward zero, so zero must lie in the ramp band; (b) for every
ramp-feasible QP iterate, directly by the QP's first ramp constraint;
and (c) for the QP `0.0` fallback again exactly when `|last_p| ≤ ramp`. -/
theorem c4_amended_ramp_bound :
    (∀ (n : ℕ) (P : MPCParams) (E socMin socMax lastP : ℚ)
       (br : BlockRows n) (rsd : Option ℤ) (r : ℚ),
       P.ramp_rate_kw_per_step = some r → |lastP| ≤ r →
       0 ≤ P.p_discharge_max_kw → 0 ≤ P.p_charge_max_kw →
       |compute_current_setpoint P E socMin socMax lastP br rsd - lastP| ≤ r) ∧
    (∀ (Q : QPParams) (E0 socMin socMax lastP : ℚ) (R : ℕ)
       (solar_fc : ℕ → ℚ) (tp : ℚ) (rsd : Option ℤ) (out r : ℚ),
       qp_setpoint_spec Q E0 socMin socMax lastP R solar_fc tp rsd out →
       Q.ramp_rate_kw_per_step = some r → 0 < R → |lastP| ≤ r →
       |out - lastP| ≤ r) := by
  refine ⟨?_, ?_⟩
  · intro n P E socMin socMax lastP br rsd r hr hlast hpd hpc
    unfold compute_current_setpoint
    dsimp only
    exact clamp_pipeline_ramp_bound P E socMin socMax lastP _ r hr hlast hpd hpc
  · intro Q E0 socMin socMax lastP R solar_fc tp rsd out r hspec hr hR hlast
    rcases hspec with ⟨a, b, hmin, rfl⟩ | rfl
    · exact (hmin.1.2.2.1 r hr).1 hR
    · rw [zero_sub, abs_neg]
      exact hlast

/-- Witness for C4 amended: heuristic arm at `last_p = 1`, ramp 2. -/
theorem c4_amended_ramp_bound_witness :
    |compute_current_setpoint c4Params 0 0 50 1 c4Rows none - 1| ≤ 2 :=
  c4_amended_ramp_bound.1 3 c4Params 0 0 50 1 c4Rows none 2 rfl
    (by norm_num) (by norm_num [c4Params]) (by norm_num [c4Params])

/-! ## Control-loop theorem (claim C5) -/

/-- `RealTimeEMS.tick` either leaves the battery state untouched or
returns a log row: there is no path that both mutates the state and
fails, because `BatteryState.step` is reached only after the two raise
sites. -/
lemma tick_state_unchanged_or_ok (P : MPCParams) (s : BatteryState)
    (day_ahead forecast5 actual5 : ℤ → Option ℚ) (day_end t_now : ℤ) :
    (RealTimeEMS.tick P s day_ahead forecast5 actual5 day_end t_now).1 = s ∨
    ∃ row, (RealTimeEMS.tick P s day_ahead forecast5 actual5
      day_end t_now).2 = .ok row := by
  unfold RealTimeEMS.tick
  dsimp only
  cases day_ahead (floor_to_15min t_now) with
  | none => exact .inl rfl
  | some pw =>
    dsimp only
    split_ifs <;> first
      | exact .inl rfl
      | exact .inr ⟨_, rfl⟩

/-- C5.  Every failed tick (missing day-ahead target at the resolved
block start, or `t_now` matching no row of the current block) returns the
battery state exactly as it was — in particular `energy_kwh` and
`last_p_kw` are unchanged — because `BatteryState.step` is invoked only
after a setpoint has been produced. -/
theorem c5_failed_tick_leaves_state (P : MPCParams) (s : BatteryState)
    (day_ahead forecast5 actual5 : ℤ → Option ℚ) (day_end t_now : ℤ)
    (e : TickError)
    (h : (RealTimeEMS.tick P s day_ahead forecast5 actual5
      day_end t_now).2 = .error e) :
    (RealTimeEMS.tick P s day_ahead forecast5 actual5 day_end t_now).1 = s := by
  rcases tick_state_unchanged_or_ok P s day_ahead forecast5 actual5
      day_end t_now with hs | ⟨row, hrow⟩
  · exact hs
  · rw [hrow] at h
    exact absurd h (by simp)

/-- Witness for C5: a tick with an empty day-ahead table fails with
`noDayAheadTarget` and preserves the state. -/
theorem c5_failed_tick_leaves_state_witness :
    (RealTimeEMS.tick c6Params c8State (fun _ => none) (fun _ => none)
      (fun _ => none) 1440 0).1 = c8State :=
  c5_failed_tick_leaves_state c6Params c8State (fun _ => none)
    (fun _ => none) (fun _ => none) 1440 0 .noDayAheadTarget rfl

/-! ## QP theorem (claim C7) -/

/-- With `w_track = 1` and all other weights zero, the QP objective over
a single remaining substep collapses to the tracking square
`(solar_fc 0 + p 0 - target)^2`. -/
lemma qpObjective_track_only (Q : QPParams)
    (hw1 : Q.w_track = 1) (hw2 : Q.w_mag = 0) (hw3 : Q.w_smooth = 0)
    (hw4 : Q.w_block_energy = 0) (hw5 : Q.w_terminal_soc = 0)
    (E0 : ℚ) (solar_fc : ℕ → ℚ) (target_power : ℚ) (rsd : Option ℤ)
    (a b : ℕ → ℚ) :
    qpObjective Q E0 1 solar_fc target_power rsd a b =
      (solar_fc 0 + (a 0 - b 0) - target_power) ^ 2 := by
  unfold qpObjective
  dsimp only
  rw [hw1, hw2, hw3, hw4, hw5]
  rcases Q.soc_terminal_kwh with _ | st <;> rcases rsd with _ | d <;>
    simp [Finset.sum_range_one]

/-- C7.  With weights `{w_track = 1, others = 0}`, a single remaining
substep, and the constraints slack at the unconstrained optimum — made
precise as: some feasible split `(w_pos, w_neg)` attains
`p = target_power - solar_fc 0` — every global minimizer of the QP has
first (and only) move `p_pos 0 - p_neg 0 = target_power - solar_fc 0`,
which is what the controller returns. -/
theorem c7_qp_single_step_tracking (Q : QPParams)
    (E0 socMin socMax lastP target_power : ℚ) (solar_fc : ℕ → ℚ)
    (rsd : Option ℤ)
    (hw1 : Q.w_track = 1) (hw2 : Q.w_mag = 0) (hw3 : Q.w_smooth = 0)
    (hw4 : Q.w_block_energy = 0) (hw5 : Q.w_terminal_soc = 0)
    (p_pos p_neg w_pos w_neg : ℕ → ℚ)
    (hw_feas : qpFeasible Q E0 socMin socMax lastP 1 w_pos w_neg)
    (hw_val : w_pos 0 - w_neg 0 = target_power - solar_fc 0)
    (hmin : IsQPMinimizer Q E0 socMin socMax lastP 1 solar_fc target_power
      rsd p_pos p_neg) :
    p_pos 0 - p_neg 0 = target_power - solar_fc 0 := by
  have hobj_w : qpObjective Q E0 1 solar_fc target_power rsd w_pos w_neg = 0 := by
    rw [qpObjective_track_only Q hw1 hw2 hw3 hw4 hw5, hw_val]
    ring
  have hle := hmin.2 w_pos w_neg hw_feas
  rw [hobj_w, qpObjective_track_only Q hw1 hw2 hw3 hw4 hw5] at hle
  have hsq : (solar_fc 0 + (p_pos 0 - p_neg 0) - target_power) ^ 2 = 0 :=
    le_antisymm hle (sq_nonneg _)
  have hzero := pow_eq_zero_iff (n := 2) (by norm_num) |>.mp hsq
  linarith

/-- QP configuration for the C7 witness: tracking weight only, no ramp,
no terminal SOC. -/
def c7Params : QPParams :=
  { dt_minutes := 5, p_discharge_max_kw := 100, p_charge_max_kw := 100,
    eta_charge := 1, eta_discharge := 1, w_track := 1, w_mag := 0,
    w_smooth := 0, w_block_energy := 0, w_terminal_soc := 0 }

/-- Discharge variable of the C7 witness point (constant 5 kW). -/
def c7ppos : ℕ → ℚ := fun _ => 5

/-- Charge variable of the C7 witness point (constant 0 kW). -/
def c7pneg : ℕ → ℚ := fun _ => 0

/-- Solar forecast of the C7 witness (zero). -/
def c7solar : ℕ → ℚ := fun _ => 0

/-- The C7 witness point is feasible. -/
lemma c7_witness_feasible :
    qpFeasible c7Params 50 0 100 0 1 c7ppos c7pneg := by
  refine ⟨?_, ?_, ?_, ?_⟩
  · intro k hk
    norm_num [c7ppos, c7Params]
  · intro k hk
    norm_num [c7pneg, c7Params]
  · intro r hr
    simp [c7Params] at hr
  · intro k hk1 hk2
    interval_cases k
    constructor <;>
      norm_num [qpE_seq, QPParams.dt_h, c7Params, c7ppos, c7pneg]

/-- The C7 witness point is a global minimizer (its objective is 0 and
the track-only objective is a square). -/
lemma c7_witness_minimizer :
    IsQPMinimizer c7Params 50 0 100 0 1 c7solar 5 none c7ppos c7pneg := by
  refine ⟨c7_witness_feasible, ?_⟩
  intro a b hfeas
  rw [qpObjective_track_only c7Params rfl rfl rfl rfl rfl,
    qpObjective_track_only c7Params rfl rfl rfl rfl rfl]
  have h1 : (c7solar 0 + (c7ppos 0 - c7pneg 0) - 5) ^ 2 = 0 := by
    norm_num [c7solar, c7ppos, c7pneg]
  rw [h1]
  exact sq_nonneg _

/-- Witness for C7: at target power 5 kW and zero solar, the minimizer
returns 5 kW. -/
theorem c7_qp_single_step_tracking_witness :
    c7ppos 0 - c7pneg 0 = 5 - c7solar 0 :=
  c7_qp_single_step_tracking c7Params 50 0 100 0 5 c7solar none
    rfl rfl rfl rfl rfl c7ppos c7pneg c7ppos c7pneg
    c7_witness_feasible (by norm_num [c7ppos, c7pneg, c7solar])
    c7_witness_minimizer

end MPCSolarBESS
